import Mathlib

/-!
Verification of the evohome integration (src/evohome.py and
src/water_heater/evohome.py) against its natural-language specification.
The Python code is shallowly embedded: dictionaries become association
lists, dictionary lookup via .get becomes an Option-returning lookup,
functions that may raise return Except, and datetimes become natural
numbers counting seconds.
-/

namespace Evohome

/-! Platform state constants (homeassistant.components.climate). -/

def STATE_AUTO : String := "auto"
def STATE_ECO : String := "eco"
def STATE_MANUAL : String := "manual"
def STATE_OFF : String := "off"

/-! Vendor mode strings, src/water_heater/evohome.py lines 39-50. -/

def EVO_RESET : String := "AutoWithReset"
def EVO_AUTO : String := "Auto"
def EVO_AUTOECO : String := "AutoWithEco"
def EVO_AWAY : String := "Away"
def EVO_DAYOFF : String := "DayOff"
def EVO_CUSTOM : String := "Custom"
def EVO_HEATOFF : String := "HeatingOff"

def EVO_FOLLOW : String := "FollowSchedule"
def EVO_TEMPOVER : String := "TemporaryOverride"
def EVO_PERMOVER : String := "PermanentOverride"

/-- Python dict lookup d.get(k): first matching key, None when absent. -/
def dictGet (d : List (String × String)) (k : String) : Option String :=
  (d.find? (fun p => p.1 == k)).map Prod.snd

/-- TCS_STATE_TO_HA, src/water_heater/evohome.py lines 54-62. -/
def TCS_STATE_TO_HA : List (String × String) :=
  [(EVO_RESET, STATE_AUTO),
   (EVO_AUTO, STATE_AUTO),
   (EVO_AUTOECO, STATE_ECO),
   (EVO_AWAY, STATE_AUTO),
   (EVO_DAYOFF, STATE_AUTO),
   (EVO_CUSTOM, STATE_AUTO),
   (EVO_HEATOFF, STATE_OFF)]

/-- HA_STATE_TO_TCS, src/water_heater/evohome.py lines 63-67. -/
def HA_STATE_TO_TCS : List (String × String) :=
  [(STATE_AUTO, EVO_AUTO),
   (STATE_ECO, EVO_AUTOECO),
   (STATE_OFF, EVO_HEATOFF)]

/-- ZONE_STATE_TO_HA, src/water_heater/evohome.py lines 76-80. -/
def ZONE_STATE_TO_HA : List (String × String) :=
  [(EVO_FOLLOW, STATE_AUTO),
   (EVO_TEMPOVER, STATE_MANUAL),
   (EVO_PERMOVER, STATE_MANUAL)]

/-- HA_STATE_TO_ZONE, src/water_heater/evohome.py lines 81-84. -/
def HA_STATE_TO_ZONE : List (String × String) :=
  [(STATE_AUTO, EVO_FOLLOW),
   (STATE_MANUAL, EVO_PERMOVER)]

/-- EvoDHW.current_operation, src/water_heater/evohome.py lines 147-169.
Inputs are the controller mode read from the shared status tree
(system_mode) and the own mode of the child device (setpoint_mode).
The Python body can raise no exception (it only uses dict .get and
comparisons), which the Except result type makes explicit: every path
returns Except.ok. -/
def current_operation (system_mode setpoint_mode : String) :
    Except String (Option String) :=
  if setpoint_mode == EVO_FOLLOW then
    if system_mode == EVO_RESET then
      Except.ok (dictGet TCS_STATE_TO_HA EVO_AUTO)
    else
      Except.ok (dictGet TCS_STATE_TO_HA system_mode)
  else
    Except.ok (dictGet ZONE_STATE_TO_HA setpoint_mode)

/-! Constants from src/evohome.py. Times are seconds (Nat). -/

def SCAN_INTERVAL_DEFAULT : Nat := 300
def SCAN_INTERVAL_MINIMUM : Nat := 180

def HTTP_BAD_REQUEST : Nat := 400
def HTTP_TOO_MANY_REQUESTS : Nat := 429
def HTTP_SERVICE_UNAVAILABLE : Nat := 503

/-- Dispatcher bit mask EVO_PARENT, src/evohome.py line 74. -/
def EVO_PARENT : Nat := 0x01

/-- Dispatcher bit mask EVO_CHILD, src/evohome.py line 75. -/
def EVO_CHILD : Nat := 0x02

/-- HTTPError from the requests library: carries a response status code. -/
structure HTTPErr where
  status_code : Nat
deriving Repr, DecidableEq

/-- Per-device timers dictionary; the only key the code would write is
statusUpdated (src/evohome.py line 216), an absolute timestamp. -/
structure Timers where
  statusUpdated : Nat
deriving Repr, DecidableEq

/-- Python exceptions the embedded code can raise: a re-raised HTTPError,
or a NameError for an unbound global name. -/
inductive PyErr where
  | http (err : HTTPErr)
  | nameError (missing : String)
deriving Repr, DecidableEq

/-- EvoDevice._handle_requests_exceptions, src/evohome.py lines 205-219.
scan_interval is self._params[CONF_SCAN_INTERVAL] in seconds. On a 429
status the code computes temp_interval (line 208) and logs the warning,
but line 216 then evaluates datetime.now(): src/evohome.py line 17 imports
only timedelta from the datetime module, so the name datetime is unbound
in that module and the attribute access raises NameError before the timers
dictionary is written. Any other status re-raises the HTTPError. -/
def handle_requests_exceptions (scan_interval : Nat) (err : HTTPErr)
    (_timers : Timers) : Except PyErr Timers :=
  if err.status_code == HTTP_TOO_MANY_REQUESTS then
    let _temp_interval := max scan_interval SCAN_INTERVAL_DEFAULT * 3
    Except.error (PyErr.nameError "datetime")
  else
    Except.error (PyErr.http err)

/-- Dispatcher packet {sender, signal, to}, src/evohome.py line 172. The
key named to in the source is a reserved word here, hence toMask. -/
structure Packet where
  sender : String
  signal : String
  toMask : Nat
deriving Repr, DecidableEq

/-- EvoDevice.should_poll, src/evohome.py lines 240-247: the stored device
type equals the parent bit mask. -/
def should_poll (devType : Nat) : Bool :=
  devType == EVO_PARENT

/-- EvoDevice._connect, src/evohome.py lines 200-203: the callback schedules
a forced refresh exactly when packet.to AND the device type is nonzero
(Python integer truthiness) and the signal is refresh. -/
def connect_triggers_refresh (devType : Nat) (packet : Packet) : Bool :=
  (packet.toMask &&& devType != 0) && (packet.signal == "refresh")

/-- Effective polling interval computed at setup, src/evohome.py lines
88-90: timedelta(minutes=(scan_interval.total_seconds() + 59) // 60),
expressed in minutes for a configured interval in whole seconds. -/
def setup_scan_interval_minutes (scan_seconds : Nat) : Nat :=
  (scan_seconds + 59) / 60

/-! Embedding of setup(), src/evohome.py lines 78-177. The vendor client
construction is an input (src code calls the external evohomeclient2
library): either a client holding installation_info, or an HTTPError. -/

/-- locationInfo sub-dictionary of one installation entry. -/
structure LocationInfo where
  locationId : String
  locationOwner : String
  streetAddress : String
  city : String
  postcode : String
deriving Repr, DecidableEq

/-- One entry of client.installation_info: the locationInfo dictionary and
the gatewayInfo field of its first gateway (loc[GWS][0]). -/
structure Location where
  locationInfo : LocationInfo
  gatewayInfo : String
deriving Repr, DecidableEq

/-- Vendor client as consumed by setup: its installation_info list. -/
structure ClientData where
  installation_info : List Location
deriving Repr, DecidableEq

/-- Configuration parameters after schema validation (evo_data[params]). -/
structure Params where
  username : String
  password : String
  location_idx : Nat
  scan_interval : Nat
deriving Repr, DecidableEq

/-- Process-wide retained state hass.data[DATA_EVOHOME] as far as setup
populates it: params always, client and config when reached. -/
structure EvoData where
  params : Params
  client : Option ClientData
  config : Option Location
deriving Repr, DecidableEq

/-- Distinguishable diagnostics logged by setup, src/evohome.py lines
102-122 and 150-155. -/
inductive SetupLog where
  | badCredentials
  | serviceUnavailable
  | rateLimited
  | locIdxOutOfRange
deriving Repr, DecidableEq

/-- Outcome of setup: a normal return (True or False) with the retained
state and the logged diagnostics, or a re-raised HTTPError (after the
finally block has redacted the credentials). -/
inductive SetupResult where
  | ret (value : Bool) (data : EvoData) (logs : List SetupLog)
  | raised (err : HTTPErr) (data : EvoData)
deriving Repr, DecidableEq

/-- Redaction of one installation entry, src/evohome.py lines 137-142. -/
def redactLoc (loc : Location) : Location :=
  { locationInfo :=
      { loc.locationInfo with
        locationId := "REDACTED",
        locationOwner := "REDACTED",
        streetAddress := "REDACTED",
        city := "REDACTED" },
    gatewayInfo := "REDACTED" }

/-- setup, src/evohome.py lines 78-177. The auth argument stands for the
EvohomeClient construction: Except.error models the HTTPError branch.
The finally block (lines 129-131) redacts username and password on every
path, including the re-raise path. client.installation_info[loc_idx]
raising IndexError is modelled by List.get?. -/
def setup (config_params : Params) (auth : Except HTTPErr ClientData) :
    SetupResult :=
  let params :=
    { config_params with username := "REDACTED", password := "REDACTED" }
  match auth with
  | Except.error err =>
    let data : EvoData := { params := params, client := none, config := none }
    if err.status_code == HTTP_BAD_REQUEST then
      SetupResult.ret false data [SetupLog.badCredentials]
    else if err.status_code == HTTP_SERVICE_UNAVAILABLE then
      SetupResult.ret false data [SetupLog.serviceUnavailable]
    else if err.status_code == HTTP_TOO_MANY_REQUESTS then
      SetupResult.ret false data [SetupLog.rateLimited]
    else
      SetupResult.raised err data
  | Except.ok client0 =>
    let client : ClientData :=
      { installation_info := client0.installation_info.map redactLoc }
    match client.installation_info.get? config_params.location_idx with
    | none =>
      SetupResult.ret false
        { params := params, client := some client, config := none }
        [SetupLog.locIdxOutOfRange]
    | some loc =>
      SetupResult.ret true
        { params := params, client := some client, config := some loc } []

/-- Predicate on a location entry: every sensitive field carries the
literal REDACTED, as the bootstrap invariant demands. -/
def locRedacted (loc : Location) : Prop :=
  loc.locationInfo.locationId = "REDACTED" ∧
  loc.locationInfo.locationOwner = "REDACTED" ∧
  loc.locationInfo.streetAddress = "REDACTED" ∧
  loc.locationInfo.city = "REDACTED" ∧
  loc.gatewayInfo = "REDACTED"

theorem redactLoc_redacted (loc : Location) : locRedacted (redactLoc loc) := by
  simp [redactLoc, locRedacted]

/-! Theorems for the claims. -/

/-- C2: the forward controller-mode mapping is total over all seven vendor
controller modes and returns exactly the specified display value for each:
reset to auto, auto to auto, auto-eco to eco, away to auto, day-off to
auto, custom to auto, heating-off to off; for every mode in that set the
result is defined and non-null. -/
theorem tcs_mode_mapping_total :
    dictGet TCS_STATE_TO_HA EVO_RESET = some STATE_AUTO ∧
    dictGet TCS_STATE_TO_HA EVO_AUTO = some STATE_AUTO ∧
    dictGet TCS_STATE_TO_HA EVO_AUTOECO = some STATE_ECO ∧
    dictGet TCS_STATE_TO_HA EVO_AWAY = some STATE_AUTO ∧
    dictGet TCS_STATE_TO_HA EVO_DAYOFF = some STATE_AUTO ∧
    dictGet TCS_STATE_TO_HA EVO_CUSTOM = some STATE_AUTO ∧
    dictGet TCS_STATE_TO_HA EVO_HEATOFF = some STATE_OFF ∧
    ∀ m ∈ [EVO_RESET, EVO_AUTO, EVO_AUTOECO, EVO_AWAY, EVO_DAYOFF,
           EVO_CUSTOM, EVO_HEATOFF],
      (dictGet TCS_STATE_TO_HA m).isSome = true := by
  decide

/-- Witness for C2: the membership hypothesis of the totality conjunct is
discharged at the concrete mode Away. -/
theorem tcs_mode_mapping_total_witness :
    (dictGet TCS_STATE_TO_HA EVO_AWAY).isSome = true :=
  tcs_mode_mapping_total.2.2.2.2.2.2.2 EVO_AWAY (by decide)

/-- C3: for a child whose own mode is follow-schedule, the displayed
operation computed with controller mode reset equals the one computed with
controller mode auto, so reset is never shown as a distinct zone state. -/
theorem reset_substitution :
    current_operation EVO_RESET EVO_FOLLOW =
      current_operation EVO_AUTO EVO_FOLLOW := rfl

/-- C4: for every controller mode, a child whose own mode is
permanent-override (likewise temporary-override) has displayed operation
manual, independent of the controller mode. -/
theorem override_isolation (system_mode : String) :
    current_operation system_mode EVO_PERMOVER =
      Except.ok (some STATE_MANUAL) ∧
    current_operation system_mode EVO_TEMPOVER =
      Except.ok (some STATE_MANUAL) :=
  ⟨rfl, rfl⟩

/-- C10: the display-to-vendor tables are right inverses of the forward
tables on their domains: for each display value in the controller command
set and in the zone command set, mapping to the vendor mode and back
returns the original display value. -/
theorem display_mapping_right_inverse :
    (dictGet HA_STATE_TO_TCS STATE_AUTO).bind
      (dictGet TCS_STATE_TO_HA) = some STATE_AUTO ∧
    (dictGet HA_STATE_TO_TCS STATE_ECO).bind
      (dictGet TCS_STATE_TO_HA) = some STATE_ECO ∧
    (dictGet HA_STATE_TO_TCS STATE_OFF).bind
      (dictGet TCS_STATE_TO_HA) = some STATE_OFF ∧
    (dictGet HA_STATE_TO_ZONE STATE_AUTO).bind
      (dictGet ZONE_STATE_TO_HA) = some STATE_AUTO ∧
    (dictGet HA_STATE_TO_ZONE STATE_MANUAL).bind
      (dictGet ZONE_STATE_TO_HA) = some STATE_MANUAL := by
  decide

/-- C8 counterexample: the vendor mode UnknownMode is absent from every
lookup table, yet computing the displayed operation signals no error: it
returns Except.ok none, the Python None default produced by dict .get. -/
theorem current_operation_unmapped_counterexample :
    current_operation EVO_AUTO "UnknownMode" = Except.ok none := rfl

/-- C8 amended: for any vendor-reported mode absent from the lookup tables,
computing the effective displayed operation returns none (an empty
default) without signalling any error, rather than failing fast. -/
theorem current_operation_unmapped (system_mode setpoint_mode : String)
    (h : dictGet ZONE_STATE_TO_HA setpoint_mode = none ∨
         (setpoint_mode = EVO_FOLLOW ∧
          dictGet TCS_STATE_TO_HA system_mode = none)) :
    current_operation system_mode setpoint_mode = Except.ok none := by
  rcases h with h1 | ⟨hf, h2⟩
  · have hne : (setpoint_mode == EVO_FOLLOW) = false := by
      cases hb : setpoint_mode == EVO_FOLLOW
      · rfl
      · rw [eq_of_beq hb] at h1
        exact absurd h1 (by decide)
    simp [current_operation, hne, h1]
  · subst hf
    have hsys : (system_mode == EVO_RESET) = false := by
      cases hb : system_mode == EVO_RESET
      · rfl
      · rw [eq_of_beq hb] at h2
        exact absurd h2 (by decide)
    simp [current_operation, hsys, h2]

/-- Witness for C8 amended: instantiated at the unmapped mode OffPeak for
the child device under controller mode Auto. -/
theorem current_operation_unmapped_witness :
    current_operation EVO_AUTO "OffPeak" = Except.ok none :=
  current_operation_unmapped EVO_AUTO "OffPeak" (Or.inl (by decide))

/-- C1: the claim fails on the code. Handling a poll error with HTTP
status 429 raises NameError for the unbound name datetime (src/evohome.py
imports only timedelta), for every configured interval and every prior
timers state; in particular no backoff timestamp now plus
max(configured interval, default interval) times three is ever recorded,
so polling is never suspended. -/
theorem rate_limit_backoff_name_error (scan : Nat) (timers : Timers) :
    handle_requests_exceptions scan ⟨HTTP_TOO_MANY_REQUESTS⟩ timers
      = Except.error (PyErr.nameError "datetime") ∧
    ∀ st : Timers,
      handle_requests_exceptions scan ⟨HTTP_TOO_MANY_REQUESTS⟩ timers
        ≠ Except.ok st := by
  refine ⟨rfl, ?_⟩
  intro st h
  simp [handle_requests_exceptions, HTTP_TOO_MANY_REQUESTS] at h

/-- C5: for every configured scan interval accepted by the schema (at least
180 seconds), the effective interval computed at setup is the configured
interval rounded up to the next whole minute: it is a whole number of
minutes covering the configured seconds, exceeding them by less than a
minute; in particular 200 seconds yields 4 minutes. -/
theorem scan_interval_rounding (s : Nat) (_hmin : SCAN_INTERVAL_MINIMUM ≤ s) :
    s ≤ setup_scan_interval_minutes s * 60 ∧
    setup_scan_interval_minutes s * 60 < s + 60 ∧
    setup_scan_interval_minutes 200 = 4 := by
  unfold setup_scan_interval_minutes
  omega

/-- Witness for C5: instantiated at the configured interval of 200
seconds. -/
theorem scan_interval_rounding_witness :
    200 ≤ setup_scan_interval_minutes 200 * 60 ∧
    setup_scan_interval_minutes 200 * 60 < 200 + 60 ∧
    setup_scan_interval_minutes 200 = 4 :=
  scan_interval_rounding 200 (by decide)

/-- C7: should_poll is true exactly for the parent bit mask, and a
dispatcher packet triggers a refresh exactly when its target mask has the
device class bit set and its signal is refresh; a packet addressed only to
the parent mask never triggers a device of the child mask, and vice
versa. -/
theorem poll_and_refresh_targeting (devType : Nat) (p : Packet) :
    (should_poll devType = true ↔ devType = EVO_PARENT) ∧
    (connect_triggers_refresh devType p = true ↔
      (p.toMask &&& devType ≠ 0 ∧ p.signal = "refresh")) ∧
    (p.toMask = EVO_PARENT →
      connect_triggers_refresh EVO_CHILD p = false) ∧
    (p.toMask = EVO_CHILD →
      connect_triggers_refresh EVO_PARENT p = false) := by
  have h12 : (1 : Nat) &&& 2 = 0 := by decide
  have h21 : (2 : Nat) &&& 1 = 0 := by decide
  refine ⟨?_, ?_, ?_, ?_⟩
  · simp [should_poll]
  · simp [connect_triggers_refresh]
  · intro hp
    simp [connect_triggers_refresh, hp, EVO_PARENT, EVO_CHILD, h12]
  · intro hp
    simp [connect_triggers_refresh, hp, EVO_PARENT, EVO_CHILD, h21]

/-- Witness for C7: the startup packet addressed to the parent mask does
not trigger a refresh of a child device. -/
theorem poll_and_refresh_targeting_witness :
    connect_triggers_refresh EVO_CHILD ⟨"setup()", "refresh", EVO_PARENT⟩
      = false :=
  (poll_and_refresh_targeting EVO_CHILD
    ⟨"setup()", "refresh", EVO_PARENT⟩).2.2.1 rfl

/-- C6: a bad-credentials, service-unavailable or rate-limited failure of
client construction makes setup log the matching distinct diagnostic and
return False without raising; a location index beyond the returned
installations also makes setup return False cleanly; any other HTTP error
class is re-raised. -/
theorem setup_error_handling (p : Params) (client : ClientData)
    (code : Nat) :
    (setup p (Except.error ⟨HTTP_BAD_REQUEST⟩) =
      SetupResult.ret false
        ⟨⟨"REDACTED", "REDACTED", p.location_idx, p.scan_interval⟩,
         none, none⟩
        [SetupLog.badCredentials]) ∧
    (setup p (Except.error ⟨HTTP_SERVICE_UNAVAILABLE⟩) =
      SetupResult.ret false
        ⟨⟨"REDACTED", "REDACTED", p.location_idx, p.scan_interval⟩,
         none, none⟩
        [SetupLog.serviceUnavailable]) ∧
    (setup p (Except.error ⟨HTTP_TOO_MANY_REQUESTS⟩) =
      SetupResult.ret false
        ⟨⟨"REDACTED", "REDACTED", p.location_idx, p.scan_interval⟩,
         none, none⟩
        [SetupLog.rateLimited]) ∧
    (code ≠ HTTP_BAD_REQUEST → code ≠ HTTP_SERVICE_UNAVAILABLE →
      code ≠ HTTP_TOO_MANY_REQUESTS →
      setup p (Except.error ⟨code⟩) =
        SetupResult.raised ⟨code⟩
          ⟨⟨"REDACTED", "REDACTED", p.location_idx, p.scan_interval⟩,
           none, none⟩) ∧
    (client.installation_info.length ≤ p.location_idx →
      setup p (Except.ok client) =
        SetupResult.ret false
          ⟨⟨"REDACTED", "REDACTED", p.location_idx, p.scan_interval⟩,
           some ⟨client.installation_info.map redactLoc⟩, none⟩
          [SetupLog.locIdxOutOfRange]) := by
  obtain ⟨u, pw, idx, scan⟩ := p
  refine ⟨rfl, rfl, rfl, ?_, ?_⟩
  · intro h1 h2 h3
    simp only [setup, HTTP_BAD_REQUEST, HTTP_SERVICE_UNAVAILABLE,
      HTTP_TOO_MANY_REQUESTS] at h1 h2 h3 ⊢
    rw [if_neg (by simpa using h1), if_neg (by simpa using h2),
      if_neg (by simpa using h3)]
  · intro hlen
    simp only [setup]
    rw [List.get?_eq_none.mpr (by simpa using hlen)]

/-- Witness for C6: with one returned installation and configured location
index 1, setup returns False with the out-of-range diagnostic; with an
HTTP status 500 the error is re-raised. -/
theorem setup_error_handling_witness :
    setup ⟨"u", "pw", 1, 300⟩
      (Except.ok ⟨[⟨⟨"id", "own", "sa", "ci", "pc"⟩, "gw"⟩]⟩) =
      SetupResult.ret false
        ⟨⟨"REDACTED", "REDACTED", 1, 300⟩,
         some ⟨[⟨⟨"REDACTED", "REDACTED", "REDACTED", "REDACTED", "pc"⟩,
                "REDACTED"⟩]⟩, none⟩
        [SetupLog.locIdxOutOfRange] ∧
    setup ⟨"u", "pw", 1, 300⟩ (Except.error ⟨500⟩) =
      SetupResult.raised ⟨500⟩
        ⟨⟨"REDACTED", "REDACTED", 1, 300⟩, none, none⟩ :=
  ⟨(setup_error_handling ⟨"u", "pw", 1, 300⟩
      ⟨[⟨⟨"id", "own", "sa", "ci", "pc"⟩, "gw"⟩]⟩ 500).2.2.2.2 (by decide),
   (setup_error_handling ⟨"u", "pw", 1, 300⟩
      ⟨[⟨⟨"id", "own", "sa", "ci", "pc"⟩, "gw"⟩]⟩ 500).2.2.2.1
      (by decide) (by decide) (by decide)⟩

/-- C9: whenever setup returns (True or False alike), the retained state
holds no plaintext credentials and every retained location is redacted:
the stored username and password, and each retained location id, owner,
street address, city and gateway info, are the literal REDACTED. -/
theorem setup_redaction (p : Params) (auth : Except HTTPErr ClientData)
    (value : Bool) (d : EvoData) (logs : List SetupLog)
    (h : setup p auth = SetupResult.ret value d logs) :
    d.params.username = "REDACTED" ∧
    d.params.password = "REDACTED" ∧
    (∀ c, d.client = some c →
      ∀ loc ∈ c.installation_info, locRedacted loc) ∧
    (∀ loc, d.config = some loc → locRedacted loc) := by
  cases auth with
  | error err =>
    simp only [setup] at h
    split at h <;> [skip; split at h] <;>
      [skip; skip; split at h] <;>
      simp only [SetupResult.ret.injEq, SetupResult.raised.injEq,
        reduceCtorEq] at h
    all_goals
      obtain ⟨-, hd, -⟩ := h
      subst hd
      refine ⟨rfl, rfl, ?_, ?_⟩ <;> intro c hc <;> simp at hc
  | ok client0 =>
    simp only [setup] at h
    split at h <;>
      simp only [SetupResult.ret.injEq] at h <;>
      obtain ⟨-, hd, -⟩ := h <;>
      subst hd <;>
      refine ⟨rfl, rfl, ?_, ?_⟩
    · intro c hc
      cases hc
      intro loc hloc
      obtain ⟨loc0, -, rfl⟩ := List.mem_map.mp hloc
      exact redactLoc_redacted loc0
    · intro loc hloc
      simp at hloc
    case _ heq =>
      intro c hc
      cases hc
      intro loc hloc
      obtain ⟨loc0, -, rfl⟩ := List.mem_map.mp hloc
      exact redactLoc_redacted loc0
    case _ loc1 heq =>
      intro loc hloc
      cases hloc
      have : loc1 ∈ client0.installation_info.map redactLoc :=
        List.get?_mem heq
      obtain ⟨loc0, -, rfl⟩ := List.mem_map.mp this
      exact redactLoc_redacted loc0

/-- Witness for C9: setup at a concrete configuration with one location
succeeds, and the retained config entry is fully redacted. -/
theorem setup_redaction_witness :
    locRedacted ⟨⟨"REDACTED", "REDACTED", "REDACTED", "REDACTED", "pc"⟩,
      "REDACTED"⟩ :=
  (setup_redaction ⟨"alice", "secret", 0, 300⟩
      (Except.ok ⟨[⟨⟨"id", "own", "sa", "ci", "pc"⟩, "gw"⟩]⟩) true
      ⟨⟨"REDACTED", "REDACTED", 0, 300⟩,
       some ⟨[⟨⟨"REDACTED", "REDACTED", "REDACTED", "REDACTED", "pc"⟩,
              "REDACTED"⟩]⟩,
       some ⟨⟨"REDACTED", "REDACTED", "REDACTED", "REDACTED", "pc"⟩,
             "REDACTED"⟩⟩ []
      rfl).2.2.2
    ⟨⟨"REDACTED", "REDACTED", "REDACTED", "REDACTED", "pc"⟩, "REDACTED"⟩ rfl

end Evohome
